import Mathlib

/-!
Shallow embedding of the Reputes work-tracker backend (`src/app.py`).

The program is an HTTP layer over a spreadsheet used as a row store.  All
logic relevant to the claims is pure: date parsing (`parse_date`), the
delivery-status classification (`get_delivery_status`), task-id generation
(`generate_task_id`), the row assembled by `create_task`, the row rewrite
performed by `update_task`, and the two listing views (`get_tasks`,
`get_active_tasks`).  The remote spreadsheet is modelled as a list of rows
(`List (List String)`): reads take the row list as input, writes are the
returned row / result value.  Randomness (`random.randint`) and the clock
(`date.today()`) are explicit parameters.
-/

namespace WorkTracker

/-! ### Python string primitives -/

/-- Whitespace characters stripped by Python's `str.strip()` (ASCII range). -/
def isPySpace (c : Char) : Bool :=
  c == ' ' || c == '\t' || c == '\n' || c == '\r' || c == '\x0b' || c == '\x0c'

/-- `str.strip()` on a character list. -/
def pyStripList (l : List Char) : List Char :=
  ((l.dropWhile isPySpace).reverse.dropWhile isPySpace).reverse

/-- Python `s.strip()`. -/
def pyStrip (s : String) : String :=
  (pyStripList s.toList).asString

/-- Python `s.replace(" ", "")`: drop every space character. -/
def removeSpaces (s : String) : String :=
  (s.toList.filter (fun c => !(c == ' '))).asString

/-- Python's Unicode uppercase mapping `str.upper()` for one character,
restricted to the Latin-1 block, where it is exact: `a`-`z` and `à`-`þ`
(except `÷`) map up by 0x20, `ß` expands to the two-character "SS", `µ`
maps to Greek `Μ`, `ÿ` maps to `Ÿ`; everything else in Latin-1 is
unchanged.  Characters outside Latin-1 are left unchanged here (the full
Unicode table is larger; no theorem below depends on them).  The mapping
returns a *list* because `upper()` is not length-preserving. -/
def pyUpperChar (c : Char) : List Char :=
  if 'a' ≤ c ∧ c ≤ 'z' then [Char.toUpper c]
  else if c = 'µ' then ['Μ']
  else if c = 'ß' then ['S', 'S']
  else if c = 'ÿ' then ['Ÿ']
  else if ('à' ≤ c ∧ c ≤ 'þ') ∧ c ≠ '÷' then [Char.ofNat (c.toNat - 32)]
  else [c]

/-- Python `s.upper()`. -/
def pyUpper (s : String) : String :=
  ((s.toList.map pyUpperChar).flatten).asString

/-- Python `s[:n]`. -/
def takeStr (n : Nat) (s : String) : String :=
  (s.toList.take n).asString

/-! ### Calendar dates (`datetime.date`) -/

/-- A calendar date as held by `datetime.date`. -/
structure Date where
  year : Nat
  month : Nat
  day : Nat
deriving DecidableEq

/-- Gregorian leap-year rule, as validated by `datetime.date`. -/
def isLeap (y : Nat) : Bool :=
  y % 4 == 0 && (y % 100 != 0 || y % 400 == 0)

/-- Number of days in month `m` of year `y`. -/
def daysInMonth (y m : Nat) : Nat :=
  if m = 2 then (if isLeap y then 29 else 28)
  else if m = 4 ∨ m = 6 ∨ m = 9 ∨ m = 11 then 30
  else 31

/-- Days in all years strictly before year `y` (proleptic Gregorian). -/
def daysBeforeYear (y : Nat) : Nat :=
  (y - 1) * 365 + (y - 1) / 4 - (y - 1) / 100 + (y - 1) / 400

/-- Days in year `y` strictly before month `m`. -/
def daysBeforeMonth (y m : Nat) : Nat :=
  (List.range (m - 1)).foldl (fun acc i => acc + daysInMonth y (i + 1)) 0

/-- `datetime.date.toordinal()`: day count with 0001-01-01 ↦ 1. -/
def toOrdinal (d : Date) : Nat :=
  daysBeforeYear d.year + daysBeforeMonth d.year d.month + d.day

/-- Python date subtraction: `(a - b).days` as a signed integer. -/
def dateSub (a b : Date) : Int :=
  (toOrdinal a : Int) - (toOrdinal b : Int)

/-- `datetime.date(y, m, d)` construction with validation: year in 1..9999,
month in 1..12, day within the month; out of range raises, modelled as `none`. -/
def mkDate (y m d : Nat) : Option Date :=
  if 1 ≤ y ∧ y ≤ 9999 ∧ 1 ≤ m ∧ m ≤ 12 ∧ 1 ≤ d ∧ d ≤ daysInMonth y m then
    some ⟨y, m, d⟩
  else
    none

/-! ### `strptime` for the four formats used by `parse_date`

CPython's `_strptime` compiles each directive to a regex fragment:
`%Y` ↦ exactly four digits, `%m` ↦ `1[0-2]|0[1-9]|[1-9]`,
`%d` ↦ `3[01]|[12]\d|0[1-9]|[1-9]`, literals match themselves, and the whole
input must be consumed.  The separators in the four formats are non-digit
characters, so the ordered-alternative match below is equivalent to the
backtracking regex. -/

/-- Decimal value of a digit character. -/
def digitVal (c : Char) : Nat := c.toNat - '0'.toNat

/-- Match `%Y`: exactly four digits. -/
def matchY : List Char → Option (Nat × List Char)
  | a :: b :: c :: d :: rest =>
    if a.isDigit ∧ b.isDigit ∧ c.isDigit ∧ d.isDigit then
      some (digitVal a * 1000 + digitVal b * 100 + digitVal c * 10 + digitVal d, rest)
    else none
  | _ => none

/-- Match `%m` (`1[0-2]|0[1-9]|[1-9]`): a month number 1..12. -/
def matchM : List Char → Option (Nat × List Char)
  | a :: b :: rest =>
    if a = '1' ∧ (b = '0' ∨ b = '1' ∨ b = '2') then some (10 + digitVal b, rest)
    else if a = '0' ∧ b.isDigit ∧ b ≠ '0' then some (digitVal b, rest)
    else if a.isDigit ∧ a ≠ '0' then some (digitVal a, b :: rest)
    else none
  | [a] => if a.isDigit ∧ a ≠ '0' then some (digitVal a, []) else none
  | [] => none

/-- Match `%d` (`3[01]|[12]\d|0[1-9]|[1-9]`): a day number 1..31. -/
def matchD : List Char → Option (Nat × List Char)
  | a :: b :: rest =>
    if a = '3' ∧ (b = '0' ∨ b = '1') then some (30 + digitVal b, rest)
    else if (a = '1' ∨ a = '2') ∧ b.isDigit then some (digitVal a * 10 + digitVal b, rest)
    else if a = '0' ∧ b.isDigit ∧ b ≠ '0' then some (digitVal b, rest)
    else if a.isDigit ∧ a ≠ '0' then some (digitVal a, b :: rest)
    else none
  | [a] => if a.isDigit ∧ a ≠ '0' then some (digitVal a, []) else none
  | [] => none

/-- One `strptime` directive: a date field or a literal separator. -/
inductive Dir where
  | year
  | month
  | day
  | lit (c : Char)

/-- Run a directive list over the input, accumulating year/month/day;
fails if a directive does not match or input remains unconsumed. -/
def runFmt : List Dir → List Char → Nat → Nat → Nat → Option (Nat × Nat × Nat)
  | [], [], y, m, d => some (y, m, d)
  | [], _ :: _, _, _, _ => none
  | .year :: rest, l, _, m, d =>
    match matchY l with
    | some (v, l2) => runFmt rest l2 v m d
    | none => none
  | .month :: rest, l, y, _, d =>
    match matchM l with
    | some (v, l2) => runFmt rest l2 y v d
    | none => none
  | .day :: rest, l, y, m, _ =>
    match matchD l with
    | some (v, l2) => runFmt rest l2 y m v
    | none => none
  | .lit c :: rest, l, y, m, d =>
    match l with
    | c2 :: l2 => if c2 = c then runFmt rest l2 y m d else none
    | [] => none

/-- `datetime.strptime(s, fmt).date()` for one format, `none` on `ValueError`. -/
def strptime (fmt : List Dir) (l : List Char) : Option Date :=
  match runFmt fmt l 0 0 0 with
  | some (y, m, d) => mkDate y m d
  | none => none

/-- Format `"%Y-%m-%d"`. -/
def fmtISO : List Dir := [.year, .lit '-', .month, .lit '-', .day]

/-- Format `"%d/%m/%Y"`. -/
def fmtDMYslash : List Dir := [.day, .lit '/', .month, .lit '/', .year]

/-- Format `"%m/%d/%Y"`. -/
def fmtMDYslash : List Dir := [.month, .lit '/', .day, .lit '/', .year]

/-- Format `"%d-%m-%Y"`. -/
def fmtDMYdash : List Dir := [.day, .lit '-', .month, .lit '-', .year]

/-- `parse_date` (src/app.py:138-145): try the four formats in order on the
stripped input, returning the first match; `None` if none match. -/
def parse_date (s : String) : Option Date :=
  let t := pyStripList s.toList
  match strptime fmtISO t with
  | some d => some d
  | none =>
    match strptime fmtDMYslash t with
    | some d => some d
    | none =>
      match strptime fmtMDYslash t with
      | some d => some d
      | none =>
        match strptime fmtDMYdash t with
        | some d => some d
        | none => none

/-! ### `strftime` -/

/-- Two-digit zero padding (`%m`, `%d`). -/
def pad2 (n : Nat) : String :=
  if n < 10 then "0" ++ toString n else toString n

/-- Four-digit zero padding (`%Y`). -/
def pad4 (n : Nat) : String :=
  if n < 10 then "000" ++ toString n
  else if n < 100 then "00" ++ toString n
  else if n < 1000 then "0" ++ toString n
  else toString n

/-- `today.strftime("%Y%m%d")`. -/
def strftimeYMD (d : Date) : String :=
  pad4 d.year ++ pad2 d.month ++ pad2 d.day

/-- `today.strftime("%Y-%m-%d")`. -/
def strftimeDash (d : Date) : String :=
  pad4 d.year ++ "-" ++ pad2 d.month ++ "-" ++ pad2 d.day

/-! ### Delivery-status classification and task-id generation -/

/-- `get_delivery_status` (src/app.py:160-168). -/
def get_delivery_status (tat_date completion_date : Date) : String :=
  let days_late := dateSub completion_date tat_date
  if days_late ≤ 0 then "On Time"
  else if days_late = 1 then "Late Submission"
  else "Late Delivery"

/-- `generate_task_id` (src/app.py:148-157); `randomNum` stands for the value
returned by `random.randint(10000, 99999)`. -/
def generate_task_id (client_name worker_name : String) (today : Date)
    (randomNum : Nat) : String :=
  let client_code := pyUpper (takeStr 5 (removeSpaces client_name))
  let date_str := strftimeYMD today
  let worker_clean := removeSpaces (pyStrip worker_name)
  client_code ++ "_" ++ toString randomNum ++ "-" ++ worker_clean ++ "-" ++ date_str

/-! ### Sheet2 rows

A Sheet2 row is a `List String`; trailing cells may be absent (the sheets
API returns ragged rows), so cells are read through `safe_get`.  The column
indices follow the `COL` table (src/app.py:26-41). -/

/-- `safe_get` (src/app.py:129-135): cell at `idx`, `""` when out of range. -/
def safe_get (row : List String) (idx : Nat) : String :=
  row.getD idx ""

/-- Column indices of the 13-column Sheet2 layout (`COL`, src/app.py:26-40). -/
def colDate : Nat := 0

/-- Column index of `Tastype`. -/
def colTastype : Nat := 1

/-- Column index of `Business ID`. -/
def colBusinessId : Nat := 2

/-- Column index of `TAT`. -/
def colTAT : Nat := 3

/-- Column index of `Task Describtion`. -/
def colDescribtion : Nat := 4

/-- Column index of `Employee Name`. -/
def colEmployee : Nat := 5

/-- Column index of `Collegaue`. -/
def colCollegaue : Nat := 6

/-- Column index of `Status`. -/
def colStatus : Nat := 7

/-- Column index of `ChnageOnStatus`. -/
def colChnage : Nat := 8

/-- Column index of `Total DaysRequired`. -/
def colDaysRequired : Nat := 9

/-- Column index of `Total Days taken`. -/
def colDaysTaken : Nat := 10

/-- Column index of `Task Delivery Status`. -/
def colDelivery : Nat := 11

/-- Column index of `ID`. -/
def colID : Nat := 12

/-- `NUM_COLS` (src/app.py:41). -/
def NUM_COLS : Nat := 13

/-- The header row written by `ensure_sheet2_with_header` (src/app.py:104-118). -/
def headerRow : List String :=
  ["Date", "Tastype", "Business ID", "TAT", "Task Describtion", "Employee Name",
   "Collegaue", "Status", "ChnageOnStatus", "Total DaysRequired",
   "Total Days taken", "Task Delivery Status", "ID"]

/-! ### Task creation (`create_task`, src/app.py:306-370) -/

/-- The JSON body of `POST /api/tasks/create`; absent keys are `none`
(`data.get(field, default)`). -/
structure CreateReq where
  taskType : Option String
  clientId : Option String
  tat : Option String
  taskDescription : Option String
  workerName : Option String
  colleague : Option String
deriving DecidableEq

/-- The field of a `CreateReq` named by a required-field name string. -/
def reqField (req : CreateReq) (name : String) : Option String :=
  if name = "taskType" then req.taskType
  else if name = "clientId" then req.clientId
  else if name = "tat" then req.tat
  else if name = "taskDescription" then req.taskDescription
  else if name = "workerName" then req.workerName
  else none

/-- `create_task` (src/app.py:306-370): validates the five required fields in
order, then builds the 13-column row appended to Sheet2.  `Except.error msg`
models the HTTP 400 rejection returned before any remote write;
`Except.ok row` models the row appended by `sheets.values().append`. -/
def create_task (req : CreateReq) (today : Date) (randomNum : Nat) :
    Except String (List String) :=
  if pyStrip (req.taskType.getD "") = "" then
    .error "Missing required field: taskType"
  else if pyStrip (req.clientId.getD "") = "" then
    .error "Missing required field: clientId"
  else if pyStrip (req.tat.getD "") = "" then
    .error "Missing required field: tat"
  else if pyStrip (req.taskDescription.getD "") = "" then
    .error "Missing required field: taskDescription"
  else if pyStrip (req.workerName.getD "") = "" then
    .error "Missing required field: workerName"
  else
    let today_str := strftimeDash today
    let task_type := pyStrip (req.taskType.getD "")
    let client_id := pyStrip (req.clientId.getD "")
    let tat_str := pyStrip (req.tat.getD "")
    let description := pyStrip (req.taskDescription.getD "")
    let worker_name := pyStrip (req.workerName.getD "")
    let colleague :=
      if pyStrip (req.colleague.getD "NONE") = "" then "NONE"
      else pyStrip (req.colleague.getD "NONE")
    let days_required_str :=
      match parse_date tat_str with
      | some tat_date => toString (dateSub tat_date today)
      | none => ""
    let task_id := generate_task_id client_id worker_name today randomNum
    .ok [today_str, task_type, client_id, tat_str, description, worker_name,
         colleague, "Pending", "", days_required_str, "", "", task_id]

/-! ### Task update (`update_task`, src/app.py:377-459) -/

/-- The JSON body of `PUT /api/tasks/update`. -/
structure UpdateReq where
  taskId : Option String
  newStatus : Option String
  newWorker : Option String
  newColleague : Option String
deriving DecidableEq

/-- Outcome of `update_task`: HTTP 400 (`badRequest`), HTTP 404 (`notFound`),
or success carrying the 1-indexed sheet row written back and its new value. -/
inductive UpdateResult where
  | badRequest (msg : String)
  | notFound (msg : String)
  | ok (rowIndex : Nat) (newRow : List String)
deriving DecidableEq

/-- The lookup loop (src/app.py:402-406): first row (0-indexed position)
whose stripped `ID` column equals `task_id`; the header row is scanned too. -/
def findTaskRow (rows : List (List String)) (task_id : String) (i : Nat) :
    Option (Nat × List String) :=
  match rows with
  | [] => none
  | row :: rest =>
    if pyStrip (safe_get row colID) = task_id then some (i, row)
    else findTaskRow rest task_id (i + 1)

/-- The conditional reassignment `if data.get(key): row[i] = data[key].strip()`
(src/app.py:419-422): the cell is overwritten only when the optional value is
present and truthy (a non-empty string). -/
def optSetStripped (t : List String) (i : Nat) (o : Option String) : List String :=
  match o with
  | some w => if w ≠ "" then t.set i (pyStrip w) else t
  | none => t

/-- The row rewrite of `update_task` (src/app.py:405-442): pad to 13 columns,
overwrite status and status-change date, optionally reassign worker and
colleague (skipped when absent or the empty string, Python truthiness), and
on a terminal status fill days-taken and delivery status when the stored
assignment date / TAT parse.  Finally truncate to `NUM_COLS`. -/
def apply_update_to_row (row : List String) (new_status : String)
    (newWorker newColleague : Option String) (today : Date) : List String :=
  let target0 := row ++ List.replicate (NUM_COLS - row.length) ""
  let target1 := target0.set colStatus new_status
  let target2 := target1.set colChnage (strftimeDash today)
  let target3 := optSetStripped target2 colEmployee newWorker
  let target4 := optSetStripped target3 colCollegaue newColleague
  let target5 :=
    if new_status = "Completed" ∨ new_status = "Cancelled" then
      let assigned_date := parse_date (safe_get target4 colDate)
      let tat_date := parse_date (safe_get target4 colTAT)
      let t1 :=
        match assigned_date with
        | some ad => target4.set colDaysTaken (toString (dateSub today ad))
        | none => target4
      match tat_date with
      | some td => t1.set colDelivery (get_delivery_status td today)
      | none => t1
    else target4
  target5.take NUM_COLS

/-- `update_task` (src/app.py:377-459) over the fetched row list `rows`
(header row included, as returned by the `A:M` range read). -/
def update_task (rows : List (List String)) (req : UpdateReq) (today : Date) :
    UpdateResult :=
  let task_id := pyStrip (req.taskId.getD "")
  let new_status := pyStrip (req.newStatus.getD "")
  if task_id = "" then .badRequest "taskId is required"
  else if new_status = "" then .badRequest "newStatus is required"
  else
    match findTaskRow rows task_id 0 with
    | none => .notFound ("Task ID '" ++ task_id ++ "' not found")
    | some (i, row) =>
      .ok (i + 1) (apply_update_to_row row new_status req.newWorker req.newColleague today)

/-! ### Listing views (`get_tasks` and `get_active_tasks`, src/app.py:215-298) -/

/-- One task object of the JSON response, with its 1-based sheet row index. -/
structure TaskOut where
  rowIndex : Nat
  date : String
  tastype : String
  businessId : String
  tat : String
  describtion : String
  employeeName : String
  collegaue : String
  status : String
  chnageOnStatus : String
  totalDaysRequired : String
  totalDaysTaken : String
  taskDeliveryStatus : String
  id : String
deriving DecidableEq

/-- The per-row task object built by both views (src/app.py:232-247). -/
def rowToTask (i : Nat) (row : List String) : TaskOut :=
  ⟨i, safe_get row colDate, safe_get row colTastype, safe_get row colBusinessId,
   safe_get row colTAT, safe_get row colDescribtion, safe_get row colEmployee,
   safe_get row colCollegaue, safe_get row colStatus, safe_get row colChnage,
   safe_get row colDaysRequired, safe_get row colDaysTaken,
   safe_get row colDelivery, safe_get row colID⟩

/-- The loop of `get_tasks` (src/app.py:231-248): `enumerate(rows[1:], start=2)`. -/
def tasksFrom (i : Nat) : List (List String) → List TaskOut
  | [] => []
  | row :: rest => rowToTask i row :: tasksFrom (i + 1) rest

/-- `GET /api/tasks` (src/app.py:215-252): all data rows, header skipped. -/
def get_tasks (rows : List (List String)) : List TaskOut :=
  match rows with
  | [] => []
  | _ :: rest => tasksFrom 2 rest

/-- The loop of `get_active_tasks` (src/app.py:272-294): rows whose stripped
status is in `{"Completed", "Cancelled"}` are skipped. -/
def activeFrom (i : Nat) : List (List String) → List TaskOut
  | [] => []
  | row :: rest =>
    if pyStrip (safe_get row colStatus) = "Completed"
        ∨ pyStrip (safe_get row colStatus) = "Cancelled" then
      activeFrom (i + 1) rest
    else
      rowToTask i row :: activeFrom (i + 1) rest

/-- `GET /api/tasks/active` (src/app.py:259-298). -/
def get_active_tasks (rows : List (List String)) : List TaskOut :=
  match rows with
  | [] => []
  | _ :: rest => activeFrom 2 rest

/-- The active view as the spec's sentence reads literally ("rows of the full
view whose status is not the exact strings Completed or Cancelled"): an
exact, un-stripped string comparison.  Stated for comparison with
`get_active_tasks`. -/
def spec_active_exact (rows : List (List String)) : List TaskOut :=
  (get_tasks rows).filter (fun t => !(t.status == "Completed" || t.status == "Cancelled"))

/-! ### Helper lemmas -/

theorem toDigitsCore_five (f n : Nat) (l : List Char)
    (h1 : 10000 ≤ n) (h2 : n ≤ 99999) (hf : 5 ≤ f) :
    Nat.toDigitsCore 10 f n l =
      Nat.digitChar (n / 10000 % 10) :: Nat.digitChar (n / 1000 % 10) ::
      Nat.digitChar (n / 100 % 10) :: Nat.digitChar (n / 10 % 10) ::
      Nat.digitChar (n % 10) :: l := by
  obtain ⟨g, rfl⟩ : ∃ g, f = g + 5 := ⟨f - 5, by omega⟩
  have e1 : ¬ n / 10 = 0 := by omega
  have e2 : ¬ n / 10 / 10 = 0 := by omega
  have e3 : ¬ n / 10 / 10 / 10 = 0 := by omega
  have e4 : ¬ n / 10 / 10 / 10 / 10 = 0 := by omega
  have e5 : n / 10 / 10 / 10 / 10 / 10 = 0 := by omega
  show Nat.toDigitsCore 10 (g + 1 + 1 + 1 + 1 + 1) n l = _
  rw [Nat.toDigitsCore, if_neg e1]
  rw [Nat.toDigitsCore, if_neg e2]
  rw [Nat.toDigitsCore, if_neg e3]
  rw [Nat.toDigitsCore, if_neg e4]
  rw [Nat.toDigitsCore, if_pos e5]
  simp only [Nat.div_div_eq_div_mul]

theorem repr_five (n : Nat) (h1 : 10000 ≤ n) (h2 : n ≤ 99999) :
    (Nat.repr n).length = 5 ∧ ∀ c ∈ (Nat.repr n).toList, c.isDigit = true := by
  have hd : ∀ m : Nat, (Nat.digitChar (m % 10)).isDigit = true := by
    intro m
    have : m % 10 < 10 := Nat.mod_lt _ (by omega)
    interval_cases h : m % 10 <;> decide
  have he : Nat.repr n = (Nat.toDigitsCore 10 (n + 1) n []).asString := rfl
  rw [he, toDigitsCore_five (n + 1) n [] h1 h2 (by omega)]
  refine ⟨rfl, ?_⟩
  have hl : ∀ l : List Char, (l.asString).toList = l := fun l => rfl
  rw [hl]
  intro c hc
  simp only [List.mem_cons, List.not_mem_nil, or_false] at hc
  rcases hc with h | h | h | h | h <;> rw [h] <;> apply hd

/-! ### Claims -/

/-- C1: for every pair of dates, the delivery-status classification depends
only on `daysLate = (completion − TAT).days`: it is "On Time" when
`daysLate ≤ 0`, "Late Submission" when `daysLate = 1`, and "Late Delivery"
when `daysLate > 1`; any two date pairs with the same difference classify
identically. -/
theorem delivery_status_classification (tat comp : Date) :
    (dateSub comp tat ≤ 0 → get_delivery_status tat comp = "On Time") ∧
    (dateSub comp tat = 1 → get_delivery_status tat comp = "Late Submission") ∧
    (1 < dateSub comp tat → get_delivery_status tat comp = "Late Delivery") ∧
    (∀ tat2 comp2 : Date, dateSub comp2 tat2 = dateSub comp tat →
      get_delivery_status tat2 comp2 = get_delivery_status tat comp) := by
  refine ⟨fun h => ?_, fun h => ?_, fun h => ?_, fun tat2 comp2 h => ?_⟩
  · simp only [get_delivery_status, if_pos h]
  · simp only [get_delivery_status]
    rw [if_neg (by omega), if_pos h]
  · simp only [get_delivery_status]
    rw [if_neg (by omega), if_neg (by omega)]
  · simp only [get_delivery_status, h]

/-- Witness for C1: TAT 2024-01-10 completed 2024-01-11 is one day late and
classifies as "Late Submission". -/
theorem delivery_status_classification_witness :
    get_delivery_status ⟨2024, 1, 10⟩ ⟨2024, 1, 11⟩ = "Late Submission" :=
  (delivery_status_classification ⟨2024, 1, 10⟩ ⟨2024, 1, 11⟩).2.1 (by decide)

/-- C2 (amended): the generated task identifier is
`{CLIENTCODE}_{RANDOM5}-{WORKER}-{YYYYMMDD}` with CLIENTCODE the client
identifier with spaces removed, truncated to 5 characters, **then**
uppercased (the code's order — uppercasing last, after truncation, which
can exceed 5 characters for case-expanding letters such as `ß`); RANDOM5
the random number from [10000, 99999], whose decimal string has exactly 5
digit characters; WORKER the worker name stripped of leading/trailing
whitespace and with the remaining spaces removed; YYYYMMDD the creation
date.  On client "Ashraf Traders", worker "Abhishek Kumar", date
2026-02-23 the result is `ASHRA_` ++ RANDOM5 ++ `-AbhishekKumar-20260223`. -/
theorem generate_task_id_code_order (client worker : String) (today : Date) (r : Nat)
    (h1 : 10000 ≤ r) (h2 : r ≤ 99999) :
    generate_task_id client worker today r =
      pyUpper (takeStr 5 (removeSpaces client)) ++ "_" ++ toString r ++ "-" ++
        removeSpaces (pyStrip worker) ++ "-" ++ strftimeYMD today ∧
    (toString r).length = 5 ∧ (∀ c ∈ (toString r).toList, c.isDigit = true) ∧
    generate_task_id "Ashraf Traders" "Abhishek Kumar" ⟨2026, 2, 23⟩ r =
      "ASHRA_" ++ toString r ++ "-AbhishekKumar-20260223" := by
  refine ⟨rfl, (repr_five r h1 h2).1, (repr_five r h1 h2).2, ?_⟩
  have c1 : pyUpper (takeStr 5 (removeSpaces "Ashraf Traders")) = "ASHRA" := by decide
  have c2 : removeSpaces (pyStrip "Abhishek Kumar") = "AbhishekKumar" := by decide
  have c3 : strftimeYMD ⟨2026, 2, 23⟩ = "20260223" := by decide
  have hstep : generate_task_id "Ashraf Traders" "Abhishek Kumar" ⟨2026, 2, 23⟩ r =
      "ASHRA" ++ "_" ++ toString r ++ "-" ++ "AbhishekKumar" ++ "-" ++ "20260223" := by
    simp only [generate_task_id, c1, c2, c3]
  rw [hstep]
  have e1 : ("ASHRA_" : String).data = ("ASHRA" : String).data ++ ("_" : String).data := by
    decide
  have e2 : ("-AbhishekKumar-20260223" : String).data =
      ("-" : String).data ++ (("AbhishekKumar" : String).data ++
        (("-" : String).data ++ ("20260223" : String).data)) := by
    decide
  apply String.ext
  simp only [String.data_append, List.append_assoc, e1, e2, List.cons_append,
    List.nil_append]

/-- Witness for C2 at random number 75076. -/
theorem generate_task_id_code_order_witness :
    generate_task_id "Ashraf Traders" "Abhishek Kumar" ⟨2026, 2, 23⟩ 75076 =
      "ASHRA_" ++ toString 75076 ++ "-AbhishekKumar-20260223" :=
  (generate_task_id_code_order "Ashraf Traders" "Abhishek Kumar" ⟨2026, 2, 23⟩ 75076
    (by decide) (by decide)).2.2.2

/-- Counterexample for C2 as stated.  First conjunct: client
"straße gmbh" — Python's `upper()` expands `ß` to "SS", so the code
(spaces removed, truncate to 5, then uppercase) produces the 6-character
code "STRASS", while the claim's order (uppercase, remove spaces, truncate
to 5) produces "STRAS"; the two identifiers differ.  Second conjunct:
worker "\tBob" — the code strips the leading tab (`strip()` runs before
`replace(" ", "")`), while the claim's "internal spaces removed" keeps it;
the identifiers differ again. -/
theorem generate_task_id_not_spec_order :
    generate_task_id "straße gmbh" "Bob" ⟨2026, 2, 23⟩ 12345 ≠
      takeStr 5 (removeSpaces (pyUpper "straße gmbh")) ++ "_" ++ toString 12345 ++
        "-" ++ removeSpaces "Bob" ++ "-" ++ strftimeYMD ⟨2026, 2, 23⟩ ∧
    generate_task_id "Acme" "\tBob" ⟨2026, 2, 23⟩ 12345 ≠
      takeStr 5 (removeSpaces (pyUpper "Acme")) ++ "_" ++ toString 12345 ++
        "-" ++ removeSpaces "\tBob" ++ "-" ++ strftimeYMD ⟨2026, 2, 23⟩ := by
  constructor <;> decide

/-- C3: `parse_date` tries the formats in strict priority order — ISO
`YYYY-MM-DD`, then `DD/MM/YYYY`, then `MM/DD/YYYY`, then `DD-MM-YYYY` — and
returns the date of the first matching format; when no format matches it
returns `none` (the function is total, so no exception escapes).  The
spec's examples: "2024-03-05", "05/03/2024" and "05-03-2024" parse to
March 5 2024, "03/05/2024" is captured by the day/month/year format first
(May 3 2024), and "not-a-date" yields `none`. -/
theorem parse_date_priority (s : String) :
    (∀ d, strptime fmtISO (pyStripList s.toList) = some d → parse_date s = some d) ∧
    (strptime fmtISO (pyStripList s.toList) = none →
      ∀ d, strptime fmtDMYslash (pyStripList s.toList) = some d → parse_date s = some d) ∧
    (strptime fmtISO (pyStripList s.toList) = none →
      strptime fmtDMYslash (pyStripList s.toList) = none →
      ∀ d, strptime fmtMDYslash (pyStripList s.toList) = some d → parse_date s = some d) ∧
    (strptime fmtISO (pyStripList s.toList) = none →
      strptime fmtDMYslash (pyStripList s.toList) = none →
      strptime fmtMDYslash (pyStripList s.toList) = none →
      parse_date s = strptime fmtDMYdash (pyStripList s.toList)) ∧
    parse_date "2024-03-05" = some ⟨2024, 3, 5⟩ ∧
    parse_date "05/03/2024" = some ⟨2024, 3, 5⟩ ∧
    parse_date "03/05/2024" = some ⟨2024, 5, 3⟩ ∧
    parse_date "05-03-2024" = some ⟨2024, 3, 5⟩ ∧
    parse_date "not-a-date" = none := by
  refine ⟨fun d h => ?_, fun h1 d h => ?_, fun h1 h2 d h => ?_, fun h1 h2 h3 => ?_,
    by decide, by decide, by decide, by decide, by decide⟩
  · simp only [parse_date, h]
  · simp only [parse_date, h1, h]
  · simp only [parse_date, h1, h2, h]
  · simp only [parse_date, h1, h2, h3]
    cases strptime fmtDMYdash (pyStripList s.toList) <;> rfl

/-- Witness for C3: the ISO format matches "2024-03-05" and `parse_date`
returns that first match. -/
theorem parse_date_priority_witness :
    strptime fmtISO (pyStripList "2024-03-05".toList) = some ⟨2024, 3, 5⟩ ∧
    parse_date "2024-03-05" = some ⟨2024, 3, 5⟩ :=
  ⟨by decide, (parse_date_priority "2024-03-05").1 ⟨2024, 3, 5⟩ (by decide)⟩

theorem safe_get_set_ne (l : List String) (i j : Nat) (v : String) (h : i ≠ j) :
    safe_get (l.set i v) j = safe_get l j := by
  simp only [safe_get, List.getD_eq_getElem?_getD, List.getElem?_set_ne h]

theorem safe_get_set_self (l : List String) (i : Nat) (v : String) (h : i < l.length) :
    safe_get (l.set i v) i = v := by
  simp only [safe_get, List.getD_eq_getElem?_getD, List.getElem?_set_self h,
    Option.getD_some]

theorem safe_get_pad (row : List String) (k j : Nat) :
    safe_get (row ++ List.replicate k "") j = safe_get row j := by
  simp only [safe_get, List.getD_eq_getElem?_getD]
  by_cases h : j < row.length
  · rw [List.getElem?_append_left h]
  · push_neg at h
    rw [List.getElem?_append_right h, List.getElem?_eq_none h]
    rcases hrep : (List.replicate k ("" : String))[j - row.length]? with _ | v
    · rfl
    · rw [List.eq_of_mem_replicate (List.getElem?_mem hrep)]
      rfl

theorem safe_get_take (l : List String) (n j : Nat) (h : j < n) :
    safe_get (l.take n) j = safe_get l j := by
  simp only [safe_get, List.getD_eq_getElem?_getD, List.getElem?_take_of_lt h]

theorem safe_get_optSet_ne (t : List String) (i : Nat) (o : Option String)
    (j : Nat) (h : i ≠ j) :
    safe_get (optSetStripped t i o) j = safe_get t j := by
  rcases o with _ | w
  · rfl
  · simp only [optSetStripped]
    by_cases hw : w = ""
    · rw [if_neg (fun hne => hne hw)]
    · rw [if_pos hw, safe_get_set_ne t i j _ h]

theorem optSet_absent (t : List String) (i : Nat) (o : Option String)
    (ho : o = none ∨ o = some "") : optSetStripped t i o = t := by
  rcases ho with h | h <;> subst h
  · rfl
  · simp [optSetStripped]

theorem optSet_length (t : List String) (i : Nat) (o : Option String) :
    (optSetStripped t i o).length = t.length := by
  rcases o with _ | w
  · rfl
  · simp only [optSetStripped]
    by_cases hw : w = ""
    · rw [if_neg (fun hne => hne hw)]
    · rw [if_pos hw, List.length_set]

/-- C4: on an update to "Completed" or "Cancelled" where the stored
assignment date and TAT both parse, the rewritten row has
days-taken = (today − assignment date).days and delivery-status given by
`get_delivery_status`; status and status-change date are overwritten; every
other column — in particular client identifier (column 2), TAT (column 3)
and description (column 4) — keeps its stored value, and the employee /
colleague columns also keep theirs when no reassignment is supplied. -/
theorem update_terminal_row (row : List String) (new_status : String)
    (newWorker newColleague : Option String) (today ad td : Date) (r : List String)
    (hr : r = apply_update_to_row row new_status newWorker newColleague today)
    (hlen : row.length ≤ NUM_COLS)
    (hst : new_status = "Completed" ∨ new_status = "Cancelled")
    (had : parse_date (safe_get row colDate) = some ad)
    (htd : parse_date (safe_get row colTAT) = some td) :
    safe_get r colDaysTaken = toString (dateSub today ad) ∧
    safe_get r colDelivery = get_delivery_status td today ∧
    safe_get r colStatus = new_status ∧
    safe_get r colChnage = strftimeDash today ∧
    (∀ j, j < NUM_COLS → j ≠ colEmployee → j ≠ colCollegaue → j ≠ colStatus →
      j ≠ colChnage → j ≠ colDaysTaken → j ≠ colDelivery →
      safe_get r j = safe_get row j) ∧
    ((newWorker = none ∨ newWorker = some "") →
      safe_get r colEmployee = safe_get row colEmployee) ∧
    ((newColleague = none ∨ newColleague = some "") →
      safe_get r colCollegaue = safe_get row colCollegaue) := by
  simp only [apply_update_to_row] at hr
  set T0 : List String := row ++ List.replicate (NUM_COLS - row.length) "" with hT0
  set T2 : List String := (T0.set colStatus new_status).set colChnage (strftimeDash today)
    with hT2
  set T4 : List String := optSetStripped (optSetStripped T2 colEmployee newWorker)
    colCollegaue newColleague with hT4
  have hlenT0 : T0.length = NUM_COLS := by
    rw [hT0, List.length_append, List.length_replicate]
    omega
  have hlenT4 : T4.length = NUM_COLS := by
    rw [hT4, optSet_length, optSet_length, List.length_set, List.length_set, hlenT0]
  have hframe : ∀ j, j ≠ colEmployee → j ≠ colCollegaue → j ≠ colStatus →
      j ≠ colChnage → safe_get T4 j = safe_get row j := by
    intro j h5 h6 h7 h8
    rw [hT4, safe_get_optSet_ne _ _ _ _ (fun he => h6 he.symm),
      safe_get_optSet_ne _ _ _ _ (fun he => h5 he.symm), hT2,
      safe_get_set_ne _ _ _ _ (fun he => h8 he.symm),
      safe_get_set_ne _ _ _ _ (fun he => h7 he.symm), hT0, safe_get_pad]
  have hD : safe_get T4 colDate = safe_get row colDate := by
    apply hframe <;> decide
  have hT : safe_get T4 colTAT = safe_get row colTAT := by
    apply hframe <;> decide
  rw [if_pos hst, hD, hT, had, htd] at hr
  set T5 : List String :=
    (T4.set colDaysTaken (toString (dateSub today ad))).set colDelivery
      (get_delivery_status td today) with hT5
  have hr5 : r = T5.take NUM_COLS := hr
  have hlenT5 : T5.length = NUM_COLS := by
    rw [hT5, List.length_set, List.length_set, hlenT4]
  have hsg : ∀ j, j < NUM_COLS → safe_get r j = safe_get T5 j := by
    intro j hj
    rw [hr5, safe_get_take _ _ _ hj]
  refine ⟨?_, ?_, ?_, ?_, ?_, ?_, ?_⟩
  · rw [hsg colDaysTaken (by decide), hT5,
      safe_get_set_ne _ _ _ _ (by decide),
      safe_get_set_self _ _ _ (by rw [hlenT4]; decide)]
  · rw [hsg colDelivery (by decide), hT5,
      safe_get_set_self _ _ _ (by rw [List.length_set, hlenT4]; decide)]
  · rw [hsg colStatus (by decide), hT5,
      safe_get_set_ne _ _ _ _ (by decide), safe_get_set_ne _ _ _ _ (by decide),
      hT4, safe_get_optSet_ne _ _ _ _ (by decide),
      safe_get_optSet_ne _ _ _ _ (by decide), hT2,
      safe_get_set_ne _ _ _ _ (by decide),
      safe_get_set_self _ _ _ (by rw [hlenT0]; decide)]
  · rw [hsg colChnage (by decide), hT5,
      safe_get_set_ne _ _ _ _ (by decide), safe_get_set_ne _ _ _ _ (by decide),
      hT4, safe_get_optSet_ne _ _ _ _ (by decide),
      safe_get_optSet_ne _ _ _ _ (by decide), hT2,
      safe_get_set_self _ _ _ (by rw [List.length_set, hlenT0]; decide)]
  · intro j hj h5 h6 h7 h8 h10 h11
    rw [hsg j hj, hT5, safe_get_set_ne _ _ _ _ (fun he => h11 he.symm),
      safe_get_set_ne _ _ _ _ (fun he => h10 he.symm)]
    exact hframe j h5 h6 h7 h8
  · intro hw
    rw [hsg colEmployee (by decide), hT5,
      safe_get_set_ne _ _ _ _ (by decide), safe_get_set_ne _ _ _ _ (by decide),
      hT4, safe_get_optSet_ne _ _ _ _ (by decide), optSet_absent _ _ _ hw, hT2,
      safe_get_set_ne _ _ _ _ (by decide), safe_get_set_ne _ _ _ _ (by decide),
      hT0, safe_get_pad]
  · intro hc
    rw [hsg colCollegaue (by decide), hT5,
      safe_get_set_ne _ _ _ _ (by decide), safe_get_set_ne _ _ _ _ (by decide),
      hT4, optSet_absent _ _ _ hc,
      safe_get_optSet_ne _ _ _ _ (by decide), hT2,
      safe_get_set_ne _ _ _ _ (by decide), safe_get_set_ne _ _ _ _ (by decide),
      hT0, safe_get_pad]

/-- Witness for C4: a concrete pending row closed as "Completed" on
2026-02-23. -/
theorem update_terminal_row_witness :
    safe_get (apply_update_to_row
        ["2026-02-20", "t", "c", "2026-02-22", "d", "w", "NONE", "Pending", "",
         "2", "", "", "X1"] "Completed" none none ⟨2026, 2, 23⟩) colDaysTaken =
      toString (dateSub ⟨2026, 2, 23⟩ ⟨2026, 2, 20⟩) ∧
    safe_get (apply_update_to_row
        ["2026-02-20", "t", "c", "2026-02-22", "d", "w", "NONE", "Pending", "",
         "2", "", "", "X1"] "Completed" none none ⟨2026, 2, 23⟩) colDelivery =
      get_delivery_status ⟨2026, 2, 22⟩ ⟨2026, 2, 23⟩ :=
  ⟨(update_terminal_row
      ["2026-02-20", "t", "c", "2026-02-22", "d", "w", "NONE", "Pending", "",
       "2", "", "", "X1"] "Completed" none none ⟨2026, 2, 23⟩ ⟨2026, 2, 20⟩
      ⟨2026, 2, 22⟩ _ rfl (by decide) (Or.inl rfl) (by decide) (by decide)).1,
   (update_terminal_row
      ["2026-02-20", "t", "c", "2026-02-22", "d", "w", "NONE", "Pending", "",
       "2", "", "", "X1"] "Completed" none none ⟨2026, 2, 23⟩ ⟨2026, 2, 20⟩
      ⟨2026, 2, 22⟩ _ rfl (by decide) (Or.inl rfl) (by decide) (by decide)).2.1⟩

theorem activeFrom_filter (l : List (List String)) : ∀ i,
    activeFrom i l = (tasksFrom i l).filter
      (fun t => !(pyStrip t.status == "Completed" || pyStrip t.status == "Cancelled")) := by
  induction l with
  | nil => intro i; rfl
  | cons row rest ih =>
    intro i
    have hstat : (rowToTask i row).status = safe_get row colStatus := rfl
    simp only [activeFrom, tasksFrom, List.filter_cons, hstat]
    by_cases h : pyStrip (safe_get row colStatus) = "Completed"
        ∨ pyStrip (safe_get row colStatus) = "Cancelled"
    · rw [if_pos h]
      have hp : (!(pyStrip (safe_get row colStatus) == "Completed"
          || pyStrip (safe_get row colStatus) == "Cancelled")) = false := by
        rcases h with h | h <;> rw [h] <;> rfl
      rw [hp, if_neg (by simp), ih]
    · rw [if_neg h]
      rcases not_or.mp h with ⟨h1, h2⟩
      have hp : (!(pyStrip (safe_get row colStatus) == "Completed"
          || pyStrip (safe_get row colStatus) == "Cancelled")) = true := by
        simp [h1, h2]
      rw [hp, if_pos rfl, ih]

/-- C5 (amended): the active view equals the full view filtered by the
*stripped* status not being "Completed" or "Cancelled"; the comparison is
case-sensitive, so a row with lowercase status "completed" is NOT excluded
(second conjunct shows such a row surviving the filter). -/
theorem active_tasks_strip_filter (rows : List (List String)) :
    get_active_tasks rows = (get_tasks rows).filter
      (fun t => !(pyStrip t.status == "Completed" || pyStrip t.status == "Cancelled")) ∧
    get_active_tasks
        [headerRow, ["a", "b", "c", "d", "e", "f", "g", "completed", "", "", "", "", "i2"]] =
      [rowToTask 2 ["a", "b", "c", "d", "e", "f", "g", "completed", "", "", "", "", "i2"]] := by
  constructor
  · cases rows with
    | nil => rfl
    | cons hd rest => exact activeFrom_filter rest 2
  · decide

/-- Counterexample for C5 as stated: with a stored status `" Completed"`
(leading space) the active view differs from the exact-string filter of the
full view — the code strips the status before comparing, so the padded row
is excluded even though its status is not the exact string "Completed". -/
theorem active_tasks_not_exact_match :
    get_active_tasks
        [headerRow, ["a", "b", "c", "d", "e", "f", "g", " Completed", "", "", "", "", "i1"]] ≠
      spec_active_exact
        [headerRow, ["a", "b", "c", "d", "e", "f", "g", " Completed", "", "", "", "", "i1"]] := by
  decide

/-- C6: when any of the five required fields is missing or blank (empty
after stripping), `create_task` rejects with an error message naming a
blank field, and produces no row to append (the `Except.error` branch is
returned before the remote write is reached). -/
theorem create_task_validation (req : CreateReq) (today : Date) (r : Nat)
    (hblank : pyStrip (req.taskType.getD "") = "" ∨ pyStrip (req.clientId.getD "") = "" ∨
      pyStrip (req.tat.getD "") = "" ∨ pyStrip (req.taskDescription.getD "") = "" ∨
      pyStrip (req.workerName.getD "") = "") :
    ∃ name, create_task req today r = Except.error ("Missing required field: " ++ name) ∧
      name ∈ ["taskType", "clientId", "tat", "taskDescription", "workerName"] ∧
      pyStrip ((reqField req name).getD "") = "" := by
  by_cases h1 : pyStrip (req.taskType.getD "") = ""
  · refine ⟨"taskType", ?_, by decide, ?_⟩
    · unfold create_task
      rw [if_pos h1]
      exact congrArg Except.error (by decide)
    · rw [show reqField req "taskType" = req.taskType from rfl]
      exact h1
  by_cases h2 : pyStrip (req.clientId.getD "") = ""
  · refine ⟨"clientId", ?_, by decide, ?_⟩
    · unfold create_task
      rw [if_neg h1, if_pos h2]
      exact congrArg Except.error (by decide)
    · rw [show reqField req "clientId" = req.clientId from rfl]
      exact h2
  by_cases h3 : pyStrip (req.tat.getD "") = ""
  · refine ⟨"tat", ?_, by decide, ?_⟩
    · unfold create_task
      rw [if_neg h1, if_neg h2, if_pos h3]
      exact congrArg Except.error (by decide)
    · rw [show reqField req "tat" = req.tat from rfl]
      exact h3
  by_cases h4 : pyStrip (req.taskDescription.getD "") = ""
  · refine ⟨"taskDescription", ?_, by decide, ?_⟩
    · unfold create_task
      rw [if_neg h1, if_neg h2, if_neg h3, if_pos h4]
      exact congrArg Except.error (by decide)
    · rw [show reqField req "taskDescription" = req.taskDescription from rfl]
      exact h4
  by_cases h5 : pyStrip (req.workerName.getD "") = ""
  · refine ⟨"workerName", ?_, by decide, ?_⟩
    · unfold create_task
      rw [if_neg h1, if_neg h2, if_neg h3, if_neg h4, if_pos h5]
      exact congrArg Except.error (by decide)
    · rw [show reqField req "workerName" = req.workerName from rfl]
      exact h5
  exact absurd hblank (by simp [h1, h2, h3, h4, h5])

/-- Witness for C6: a request with a blank (whitespace-only) client id is
rejected naming a blank field. -/
theorem create_task_validation_witness :
    ∃ name,
      create_task ⟨some "Audit", some "  ", some "2026-03-01", some "do it",
        some "Bob", none⟩ ⟨2026, 2, 23⟩ 12345 =
        Except.error ("Missing required field: " ++ name) ∧
      name ∈ ["taskType", "clientId", "tat", "taskDescription", "workerName"] ∧
      pyStrip ((reqField ⟨some "Audit", some "  ", some "2026-03-01", some "do it",
        some "Bob", none⟩ name).getD "") = "" :=
  create_task_validation ⟨some "Audit", some "  ", some "2026-03-01", some "do it",
    some "Bob", none⟩ ⟨2026, 2, 23⟩ 12345 (by decide)

/-- C7: in a successfully created row, days-required (column 9) is the
signed integer (TAT date − today).days rendered as a string when the TAT
string parses, and the empty string when it does not. -/
theorem create_task_days_required (req : CreateReq) (today : Date) (r : Nat)
    (row : List String) (hok : create_task req today r = Except.ok row) :
    (∀ d, parse_date (pyStrip (req.tat.getD "")) = some d →
      safe_get row colDaysRequired = toString (dateSub d today)) ∧
    (parse_date (pyStrip (req.tat.getD "")) = none →
      safe_get row colDaysRequired = "") := by
  unfold create_task at hok
  split_ifs at hok
  all_goals injection hok with hok
  all_goals subst hok
  all_goals refine ⟨fun d hd => ?_, fun hd => ?_⟩
  all_goals first
  | (show (match parse_date (pyStrip (req.tat.getD "")) with
      | some tat_date => toString (dateSub tat_date today)
      | none => "") = toString (dateSub d today)
     rw [hd])
  | (show (match parse_date (pyStrip (req.tat.getD "")) with
      | some tat_date => toString (dateSub tat_date today)
      | none => "") = ""
     rw [hd])

/-- Witness for C7: TAT 2026-03-01 created on 2026-02-23 stores "6". -/
theorem create_task_days_required_witness :
    safe_get ["2026-02-23", "Audit", "Ashraf Traders", "2026-03-01", "do it",
      "Abhishek Kumar", "NONE", "Pending", "", "6", "", "",
      "ASHRA_12345-AbhishekKumar-20260223"] colDaysRequired =
      toString (dateSub ⟨2026, 3, 1⟩ ⟨2026, 2, 23⟩) :=
  (create_task_days_required
    ⟨some "Audit", some "Ashraf Traders", some "2026-03-01", some "do it",
      some "Abhishek Kumar", none⟩ ⟨2026, 2, 23⟩ 12345
    ["2026-02-23", "Audit", "Ashraf Traders", "2026-03-01", "do it",
      "Abhishek Kumar", "NONE", "Pending", "", "6", "", "",
      "ASHRA_12345-AbhishekKumar-20260223"] rfl).1 ⟨2026, 3, 1⟩ (by decide)

/-- C8: a successfully created row has exactly 13 columns, status
"Pending", status-change date, days-taken and delivery-status all empty,
and colleague "NONE" when the request's colleague is absent or blank. -/
theorem create_task_row_shape (req : CreateReq) (today : Date) (r : Nat)
    (row : List String) (hok : create_task req today r = Except.ok row) :
    row.length = NUM_COLS ∧
    safe_get row colStatus = "Pending" ∧
    safe_get row colChnage = "" ∧
    safe_get row colDaysTaken = "" ∧
    safe_get row colDelivery = "" ∧
    ((req.colleague = none ∨ pyStrip (req.colleague.getD "") = "") →
      safe_get row colCollegaue = "NONE") := by
  unfold create_task at hok
  split_ifs at hok with h1 h2 h3 h4 h5 hcol
  all_goals injection hok with hok
  all_goals subst hok
  · exact ⟨rfl, rfl, rfl, rfl, rfl, fun _ => rfl⟩
  · refine ⟨rfl, rfl, rfl, rfl, rfl, fun hc => ?_⟩
    cases hcr : req.colleague with
    | none => rfl
    | some c =>
      exfalso
      apply hcol
      rw [hcr]
      rw [hcr] at hc
      rcases hc with h | h
      · exact absurd h (by simp)
      · exact h

/-- Witness for C8: a concrete creation with no colleague supplied. -/
theorem create_task_row_shape_witness :
    (["2026-02-23", "Audit", "Ashraf Traders", "2026-03-01", "do it",
      "Abhishek Kumar", "NONE", "Pending", "", "6", "", "",
      "ASHRA_12345-AbhishekKumar-20260223"] : List String).length = NUM_COLS ∧
    safe_get ["2026-02-23", "Audit", "Ashraf Traders", "2026-03-01", "do it",
      "Abhishek Kumar", "NONE", "Pending", "", "6", "", "",
      "ASHRA_12345-AbhishekKumar-20260223"] colCollegaue = "NONE" :=
  ⟨(create_task_row_shape
      ⟨some "Audit", some "Ashraf Traders", some "2026-03-01", some "do it",
        some "Abhishek Kumar", none⟩ ⟨2026, 2, 23⟩ 12345
      ["2026-02-23", "Audit", "Ashraf Traders", "2026-03-01", "do it",
        "Abhishek Kumar", "NONE", "Pending", "", "6", "", "",
        "ASHRA_12345-AbhishekKumar-20260223"] rfl).1,
   (create_task_row_shape
      ⟨some "Audit", some "Ashraf Traders", some "2026-03-01", some "do it",
        some "Abhishek Kumar", none⟩ ⟨2026, 2, 23⟩ 12345
      ["2026-02-23", "Audit", "Ashraf Traders", "2026-03-01", "do it",
        "Abhishek Kumar", "NONE", "Pending", "", "6", "", "",
        "ASHRA_12345-AbhishekKumar-20260223"] rfl).2.2.2.2.2 (Or.inl rfl)⟩

theorem findTaskRow_eq_none (rows : List (List String)) (tid : String)
    (h : ∀ row ∈ rows, pyStrip (safe_get row colID) ≠ tid) :
    ∀ i, findTaskRow rows tid i = none := by
  induction rows with
  | nil => intro i; rfl
  | cons row rest ih =>
    intro i
    unfold findTaskRow
    rw [if_neg (h row (List.mem_cons_self row rest))]
    exact ih (fun r hr => h r (List.mem_cons_of_mem row hr)) (i + 1)

/-- C9: an update whose (stripped) task id matches no stored row's stripped
`ID` cell returns the distinct `notFound` outcome (the HTTP 404 branch),
which carries no written row — unlike the `ok` outcome, the only result
that writes back to the sheet. -/
theorem update_task_not_found (rows : List (List String)) (req : UpdateReq)
    (today : Date)
    (hid : pyStrip (req.taskId.getD "") ≠ "")
    (hst : pyStrip (req.newStatus.getD "") ≠ "")
    (hnone : ∀ row ∈ rows, pyStrip (safe_get row colID) ≠ pyStrip (req.taskId.getD "")) :
    update_task rows req today =
      UpdateResult.notFound ("Task ID '" ++ pyStrip (req.taskId.getD "") ++ "' not found") := by
  unfold update_task
  rw [if_neg hid, if_neg hst, findTaskRow_eq_none rows _ hnone 0]

/-- Witness for C9: task id "ZZZ" is absent from a sheet holding only the
header row. -/
theorem update_task_not_found_witness :
    update_task [headerRow] ⟨some "ZZZ", some "Completed", none, none⟩ ⟨2026, 2, 23⟩ =
      UpdateResult.notFound
        ("Task ID '" ++ pyStrip ((some "ZZZ" : Option String).getD "") ++ "' not found") :=
  update_task_not_found [headerRow] ⟨some "ZZZ", some "Completed", none, none⟩
    ⟨2026, 2, 23⟩ (by decide) (by decide) (by decide)

/-- C10: the lookup loop of the update flow scans the header row too; its
`ID` column holds the literal label "ID", so an update with task id exactly
"ID" matches sheet row 1 and rewrites the header (status and status-change
columns overwritten) instead of returning `notFound`. -/
theorem update_task_header_hijack :
    update_task [headerRow] ⟨some "ID", some "In Progress", none, none⟩ ⟨2026, 2, 23⟩ =
      UpdateResult.ok 1
        ["Date", "Tastype", "Business ID", "TAT", "Task Describtion", "Employee Name",
         "Collegaue", "In Progress", "2026-02-23", "Total DaysRequired",
         "Total Days taken", "Task Delivery Status", "ID"] ∧
    ∀ msg, update_task [headerRow] ⟨some "ID", some "In Progress", none, none⟩
      ⟨2026, 2, 23⟩ ≠ UpdateResult.notFound msg := by
  have h1 : update_task [headerRow] ⟨some "ID", some "In Progress", none, none⟩
      ⟨2026, 2, 23⟩ =
      UpdateResult.ok 1
        ["Date", "Tastype", "Business ID", "TAT", "Task Describtion", "Employee Name",
         "Collegaue", "In Progress", "2026-02-23", "Total DaysRequired",
         "Total Days taken", "Task Delivery Status", "ID"] := by
    decide
  refine ⟨h1, fun msg h => ?_⟩
  rw [h1] at h
  exact UpdateResult.noConfusion h

end WorkTracker
